import Mathlib

/-!
# Verification of `js/main.js` (portfolio site client script)

Shallow embedding of the content-rendering and animation pipeline of
`js/main.js`.  Pure computations (the Base64 `decode` utility, the two
renderers, the fallback fragment) are translated directly into Lean
functions; the stateful pieces (the role-rotation sequencer, the
intersection-observer handler, the in-place array operations of
`renderTimeline`) are embedded as explicit state-passing functions over
explicit state types.  The awaited-promise chain of `typeRole` is embedded
as the sequential trace of its timer ticks, which is exactly the order in
which the single-threaded event loop runs them.
-/

/-! ## Base64 decoding (`atob`, WHATWG forgiving-base64) and `decode`

`decode` (main.js lines 51-57) wraps the browser primitive `atob` in a
try/catch that returns the input unchanged on failure.  `atob` performs the
forgiving-base64 decode: ASCII whitespace is stripped, up to two trailing
`=` are removed when the length is a multiple of four, a remainder of one
is rejected, every remaining character must be in the Base64 alphabet, and
the sextets are packed into bytes with leftover bits discarded.  The
embedding returns `none` exactly where `atob` throws. -/

def b64Index (c : Char) : Option Nat :=
  if 'A' ≤ c ∧ c ≤ 'Z' then some (c.toNat - 65)
  else if 'a' ≤ c ∧ c ≤ 'z' then some (c.toNat - 71)
  else if '0' ≤ c ∧ c ≤ '9' then some (c.toNat + 4)
  else if c = '+' then some 62
  else if c = '/' then some 63
  else none

def sextetsToBytes : List Nat → Option (List Nat)
  | [] => some []
  | [_] => none
  | [a, b] => some [(a * 4 + b / 16) % 256]
  | [a, b, c] => some [(a * 4 + b / 16) % 256, (b % 16 * 16 + c / 4) % 256]
  | a :: b :: c :: d :: rest =>
    (sextetsToBytes rest).map
      (fun tail =>
        (a * 4 + b / 16) % 256 :: (b % 16 * 16 + c / 4) % 256 :: (c % 4 * 64 + d) % 256 :: tail)

def isB64Whitespace (c : Char) : Bool :=
  c == ' ' || c == '\t' || c == '\n' || c == '\x0c' || c == '\r'

def stripB64Padding (l : List Char) : List Char :=
  if l.length % 4 = 0 then
    match l.reverse with
    | '=' :: '=' :: rest => rest.reverse
    | '=' :: rest => rest.reverse
    | _ => l
  else l

def atob (s : String) : Option String := do
  let cs := s.data.filter (fun c => !isB64Whitespace c)
  let cs := stripB64Padding cs
  if cs.length % 4 = 1 then none
  else
    let sextets ← cs.mapM b64Index
    let bytes ← sextetsToBytes sextets
    return String.mk (bytes.map Char.ofNat)

/-- main.js 51-57: `decode(str)` returns `atob(str)`, and on a thrown
decoding error returns `str` itself. -/
def decode (str : String) : String := (atob str).getD str

/-! ## Configuration (main.js 10-34) -/

structure Role where
  title : String
  tags : List String
deriving DecidableEq

structure Config where
  roles : List Role
  typeSpeed : Nat
  deleteSpeed : Nat
  pauseBetweenRoles : Nat
  scrollThreshold : ℚ
  parallaxStrength : ℚ

def CONFIG : Config :=
  { roles :=
      [ ⟨"Traffic Engineer", ["Traffic Flow", "Signal Timing", "Safety Analysis", "Simulation"]⟩
      , ⟨"Computer Vision Specialist", ["OpenCV", "YOLO", "Object Tracking", "Calibration"]⟩
      , ⟨"GeoSpatial Data Scientist", ["QGIS", "Spatial Analysis", "Mapping", "GeoPandas"]⟩
      , ⟨"Software Developer", ["Python", "R", "Agentic Coding", "Data Pipelines"]⟩ ]
  , typeSpeed := 70
  , deleteSpeed := 35
  , pauseBetweenRoles := 2500
  , scrollThreshold := 15 / 100
  , parallaxStrength := 3 / 10 }

/-! ## Role rotation (main.js 122-242)

`showTags` (196-223) clears the tag container and appends one `span` per
tag: every span gets class `tag`, and the span at index 0 additionally gets
`tag--highlight`.  We model one rendered span as a `TagElem` and `showTags`
as the list of spans appended, in append order. -/

structure TagElem where
  classes : List String
  text : String
deriving DecidableEq

def mkTagElem (i : Nat) (t : String) : TagElem :=
  ⟨if i = 0 then ["tag", "tag--highlight"] else ["tag"], t⟩

def showTagsFrom (i : Nat) : List String → List TagElem
  | [] => []
  | t :: ts => mkTagElem i t :: showTagsFrom (i + 1) ts

def showTags (tags : List String) : List TagElem := showTagsFrom 0 tags

/-- main.js 132-136: `showStaticRole` renders `CONFIG.roles[0]`: its title
into the role-text node and its tags via `showTags`. -/
def showStaticRole : String × List TagElem :=
  let role := CONFIG.roles.getD 0 ⟨"", []⟩
  (role.title, showTags role.tags)

inductive InitOutcome
  | noop
  | staticRender (titleText : String) (tags : List TagElem)
  | animationLoop (startIndex : Nat)
deriving DecidableEq

/-- main.js 123-130: `RoleRotation.init` returns immediately when either
DOM node is missing; under reduced motion it performs the single static
render and returns; otherwise it starts the `typeRole` animation loop at
`state.currentRoleIndex = 0`. -/
def roleRotationInit (reducedMotion hasRoleText hasTagsContainer : Bool) : InitOutcome :=
  if !hasRoleText || !hasTagsContainer then .noop
  else if reducedMotion then .staticRender showStaticRole.1 showStaticRole.2
  else .animationLoop 0

/-! ## The typewriter iteration as a phase trace (main.js 138-161)

One `typeRole` iteration awaits, in program order: `typeText` (one timer
tick per character of the title), `showTags` (one staggered tick per tag),
`wait` (one dwell of `pauseBetweenRoles`), `deleteText` (one tick per
deleted character); then it advances `state.currentRoleIndex` by one modulo
`CONFIG.roles.length` and re-schedules itself.  Because every phase is
awaited before the next is started and the event loop is single-threaded,
the ticks of one iteration execute exactly in the concatenation order
below. -/

inductive Phase
  | typing
  | tagging
  | pausing
  | deleting
deriving DecidableEq

def phaseRank : Phase → Nat
  | .typing => 0
  | .tagging => 1
  | .pausing => 2
  | .deleting => 3

def roleIterationTrace (r : Role) : List Phase :=
  List.replicate r.title.length .typing
    ++ List.replicate r.tags.length .tagging
    ++ [.pausing]
    ++ List.replicate r.title.length .deleting

/-- main.js 157: `state.currentRoleIndex = (state.currentRoleIndex + 1) % CONFIG.roles.length`. -/
def nextRoleIndex (i : Nat) : Nat := (i + 1) % CONFIG.roles.length

/-! ## Project rendering (main.js 491-609)

JavaScript string interpolation is embedded as string concatenation; a
conditional `${cond ? a : b}` hole becomes an `if`.  Truthiness of an
optional string field (`project.image`, `project.links.github`, ...) is
JavaScript truthiness: absent or empty strings are falsy. -/

def jsTruthy : Option String → Bool
  | none => false
  | some s => !(s == "")

structure ProjectLinks where
  github : Option String
  demo : Option String
deriving DecidableEq

structure ProjectEntry where
  title : String
  description : String
  tags : List String
  image : Option String
  status : String
  links : ProjectLinks
  featured : Bool
deriving DecidableEq

/-- main.js 515-524: the image hole of a project card. -/
def projectCardImage (project : ProjectEntry) : String :=
  if jsTruthy project.image then
    "<img src=\"" ++ project.image.getD "" ++ "\" alt=\"" ++ project.title
      ++ "\" loading=\"lazy\" width=\"400\" height=\"225\">"
  else
    "<div class=\"project-card__placeholder\">
                    <svg width=\"48\" height=\"48\" viewBox=\"0 0 24 24\" fill=\"none\" stroke=\"currentColor\" stroke-width=\"1.5\">
                      <rect x=\"3\" y=\"3\" width=\"18\" height=\"18\" rx=\"2\" ry=\"2\"/>
                      <circle cx=\"8.5\" cy=\"8.5\" r=\"1.5\"/>
                      <polyline points=\"21 15 16 10 5 21\"/>
                    </svg>
                  </div>"

/-- main.js 529-534: the tag-list hole of a project card. -/
def projectCardTags (project : ProjectEntry) : String :=
  if project.tags.length > 0 then
    "<div class=\"project-card__tags\">
                    "
      ++ String.join (project.tags.map (fun tag => "<span class=\"tag\">" ++ tag ++ "</span>"))
      ++ "
                  </div>"
  else ""

/-- main.js 537-548: the demo-anchor hole of the links block. -/
def projectCardDemoLink (project : ProjectEntry) : String :=
  if jsTruthy project.links.demo then
    "<a href=\"" ++ project.links.demo.getD ""
      ++ "\" class=\"project-card__link\" target=\"_blank\" rel=\"noopener noreferrer\">
                          <svg width=\"16\" height=\"16\" viewBox=\"0 0 24 24\" fill=\"none\" stroke=\"currentColor\" stroke-width=\"2\">
                            <path d=\"M18 13v6a2 2 0 0 1-2 2H5a2 2 0 0 1-2-2V8a2 2 0 0 1 2-2h6\"/>
                            <polyline points=\"15 3 21 3 21 9\"/>
                            <line x1=\"10\" y1=\"14\" x2=\"21\" y2=\"3\"/>
                          </svg>
                          Demo
                        </a>"
  else ""

/-- main.js 548-556: the github-anchor hole of the links block. -/
def projectCardGithubLink (project : ProjectEntry) : String :=
  if jsTruthy project.links.github then
    "<a href=\"" ++ project.links.github.getD ""
      ++ "\" class=\"project-card__link\" target=\"_blank\" rel=\"noopener noreferrer\">
                          <svg width=\"16\" height=\"16\" viewBox=\"0 0 24 24\" fill=\"currentColor\">
                            <path d=\"M12 0C5.37 0 0 5.37 0 12c0 5.31 3.435 9.795 8.205 11.385.6.105.825-.255.825-.57 0-.285-.015-1.23-.015-2.235-3.015.555-3.795-.735-4.035-1.41-.135-.345-.72-1.41-1.23-1.695-.42-.225-1.02-.78-.015-.795.945-.015 1.62.87 1.845 1.23 1.08 1.815 2.805 1.305 3.495.99.105-.78.42-1.305.765-1.605-2.67-.3-5.46-1.335-5.46-5.925 0-1.305.465-2.385 1.23-3.225-.12-.3-.54-1.53.12-3.18 0 0 1.005-.315 3.3 1.23.96-.27 1.98-.405 3-.405s2.04.135 3 .405c2.295-1.56 3.3-1.23 3.3-1.23.66 1.65.24 2.88.12 3.18.765.84 1.23 1.905 1.23 3.225 0 4.605-2.805 5.625-5.475 5.925.435.375.81 1.095.81 2.22 0 1.605-.015 2.895-.015 3.3 0 .315.225.69.825.57A12.02 12.02 0 0024 12c0-6.63-5.37-12-12-12z\"/>
                          </svg>
                          Code
                        </a>"
  else ""

/-- main.js 535-559: the external-links hole of a project card.  The block
is emitted exactly when `!isComingSoon && (project.links.github ||
project.links.demo)`. -/
def projectCardLinks (project : ProjectEntry) : String :=
  if !(project.status == "coming-soon")
      && (jsTruthy project.links.github || jsTruthy project.links.demo) then
    "<div class=\"project-card__links\">
                    "
      ++ projectCardDemoLink project
      ++ "
                    "
      ++ projectCardGithubLink project
      ++ "
                  </div>"
  else ""

/-- main.js 512-562: one project card (the body of the `projects.map`
callback in `renderProjects`). -/
def renderProjectCard (project : ProjectEntry) : String :=
  let isComingSoon := project.status == "coming-soon"
  let cardClass :=
    if isComingSoon then "card project-card project-card--coming-soon" else "card project-card"
  "
          <article class=\"" ++ cardClass ++ " reveal\">
            <div class=\"project-card__image\">
              " ++ projectCardImage project ++ "
            </div>
            <div class=\"project-card__body\">
              <h3 class=\"project-card__title\">" ++ project.title ++ "</h3>
              <p class=\"project-card__description\">" ++ project.description ++ "</p>
              " ++ projectCardTags project ++ "
              " ++ projectCardLinks project ++ "
            </div>
          </article>
        "

/-- main.js 507-563: `renderProjects` maps every entry to its card and
joins with the empty separator. -/
def renderProjects (projects : List ProjectEntry) : String :=
  String.join (projects.map renderProjectCard)

/-- main.js 571-609: the fixed fallback fragment written to the projects
grid when the fetch fails. -/
def renderProjectsFallbackHTML : String := "
        <article class=\"card project-card reveal\">
          <div class=\"project-card__image\">
            <div class=\"project-card__placeholder\">
              <svg width=\"48\" height=\"48\" viewBox=\"0 0 24 24\" fill=\"none\" stroke=\"currentColor\" stroke-width=\"1.5\">
                <rect x=\"3\" y=\"3\" width=\"18\" height=\"18\" rx=\"2\" ry=\"2\"/>
                <circle cx=\"8.5\" cy=\"8.5\" r=\"1.5\"/>
                <polyline points=\"21 15 16 10 5 21\"/>
              </svg>
            </div>
          </div>
          <div class=\"project-card__body\">
            <h3 class=\"project-card__title\">Multi-Camera Trajectory Fusion</h3>
            <p class=\"project-card__description\">Diploma thesis project developing algorithms to merge vehicle trajectories from multiple overlapping camera views into unified traffic flow representations.</p>
            <div class=\"project-card__tags\">
              <span class=\"tag\">Python</span>
              <span class=\"tag\">OpenCV</span>
              <span class=\"tag\">YOLO</span>
              <span class=\"tag\">Tracking</span>
            </div>
          </div>
        </article>
        <article class=\"card project-card project-card--coming-soon reveal\">
          <div class=\"project-card__image\">
            <div class=\"project-card__placeholder\">
              <svg width=\"48\" height=\"48\" viewBox=\"0 0 24 24\" fill=\"none\" stroke=\"currentColor\" stroke-width=\"1.5\">
                <circle cx=\"12\" cy=\"12\" r=\"10\"/>
                <polyline points=\"12 6 12 12 16 14\"/>
              </svg>
            </div>
          </div>
          <div class=\"project-card__body\">
            <h3 class=\"project-card__title\">More Projects Coming Soon</h3>
            <p class=\"project-card__description\">Additional projects showcasing traffic engineering, computer vision, and software development work will be added here.</p>
          </div>
        </article>
      "

/-! ## Timeline rendering (main.js 624-662) -/

structure TimelineEntry where
  period : String
  type : String
  title : String
  organization : String
  location : String
  current : Bool
  description : Option String
  highlights : Option (List String)
deriving DecidableEq

/-- JavaScript truthiness of `item.highlights && item.highlights.length > 0`:
an absent field is falsy; a present array is truthy, so the conjunction
reduces to its length test. -/
def highlightsNonempty : Option (List String) → Bool
  | none => false
  | some l => l.length > 0

/-- main.js 633-654: one timeline item (the body of the `sortedItems.map`
callback in `renderTimeline`). -/
def renderTimelineItem (item : TimelineEntry) : String :=
  let isCurrentClass := if item.current then "timeline__item--current" else ""
  let typeClass := if item.type == "education" then "tag--education" else "tag--work"
  let typeLabel := if item.type == "education" then "Education" else "Work"
  "
          <div class=\"timeline__item " ++ isCurrentClass ++ "\">
            <div class=\"timeline__dot\"></div>
            <div class=\"timeline__content\">
              <div class=\"timeline__header\">
                <span class=\"timeline__period\">" ++ item.period ++ "</span>
                <span class=\"tag timeline__type " ++ typeClass ++ "\">" ++ typeLabel ++ "</span>
                " ++ (if item.current then "<span class=\"tag tag--highlight\">Current</span>" else "") ++ "
              </div>
              <h3 class=\"timeline__title\">" ++ item.title ++ "</h3>
              <p class=\"timeline__org\">" ++ item.organization ++ "</p>
              <p class=\"timeline__location\">" ++ item.location ++ "</p>
              " ++ (if jsTruthy item.description then
                      "<p class=\"timeline__description\">" ++ item.description.getD "" ++ "</p>"
                    else "") ++ "
              " ++ (if highlightsNonempty item.highlights then
                      "<div class=\"timeline__highlights\">
                    "
                        ++ String.join (((item.highlights.getD []).map
                              (fun h => "<span class=\"tag\">" ++ h ++ "</span>")))
                        ++ "
                  </div>"
                    else "") ++ "
            </div>
          </div>
        "

/-- main.js 624-655: `renderTimeline` reverses a spread copy of its input
and joins the mapped cards with the empty separator. -/
def renderTimeline (items : List TimelineEntry) : String :=
  let sortedItems := items.reverse
  String.join (sortedItems.map renderTimelineItem)

/-! ### `renderTimeline` with explicit array mutation (for the frame property)

JavaScript `Array.prototype.reverse` mutates its receiver in place, and
`renderTimeline` calls it on the fresh copy `[...items]`, not on `items`.
To state this as a theorem we embed JavaScript arrays as references into an
explicit store and give `reverse` its in-place semantics. -/

abbrev ArrayStore := List (List TimelineEntry)

def readArr (st : ArrayStore) (r : Nat) : List TimelineEntry := st.getD r []

def writeArr (st : ArrayStore) (r : Nat) (v : List TimelineEntry) : ArrayStore := st.set r v

def allocArr (st : ArrayStore) (v : List TimelineEntry) : ArrayStore × Nat :=
  (st ++ [v], st.length)

/-- main.js 624-655 with the store explicit: `[...items]` allocates a fresh
array holding the same elements, `.reverse()` mutates that fresh array in
place, and the cards are mapped off the mutated copy.  Returns the final
store together with the markup written to the container. -/
def renderTimelineJS (st : ArrayStore) (items : Nat) : ArrayStore × String :=
  let spread := allocArr st (readArr st items)
  let st1 := spread.1
  let sortedItems := spread.2
  let st2 := writeArr st1 sortedItems (readArr st1 sortedItems).reverse
  (st2, String.join ((readArr st2 sortedItems).map renderTimelineItem))

/-! ## Data loading (main.js 492-505, 611-622)

The fetch pipeline (transport, response status check, JSON parse) collapses
all failures into the single caught error; we embed its outcome as an
`Except String` value supplied to the loader.  The loader itself is wrapped
in `Except String` so that a thrown error escaping `loadProjects` or
`loadTimeline` would show up as an `Except.error` result. -/

structure ProjectsDoc where
  projects : List ProjectEntry
deriving DecidableEq

structure TimelineDoc where
  timeline : List TimelineEntry
deriving DecidableEq

/-- The DOM containers `DataLoader` writes to: `none` models an absent
container, `some html` a container whose `innerHTML` is `html`. -/
structure Dom where
  projectsGrid : Option String
  timelineContainer : Option String
deriving DecidableEq

/-- main.js 493-505: `loadProjects` returns early when the grid is absent;
on a successful fetch it renders the featured entries; on any failure it
logs and writes the fallback fragment.  The catch guarantees the function
itself never throws, hence the result is always `Except.ok`. -/
def loadProjects (fetched : Except String ProjectsDoc) (dom : Dom) : Except String Dom :=
  match dom.projectsGrid with
  | none => .ok dom
  | some _ =>
    match fetched with
    | .ok data =>
      .ok { dom with projectsGrid := some (renderProjects (data.projects.filter (·.featured))) }
    | .error _ => .ok { dom with projectsGrid := some renderProjectsFallbackHTML }

/-- main.js 611-622: `loadTimeline` returns early when the container is
absent; on a successful fetch it renders the timeline; on any failure it
only logs — the container is left untouched and nothing is thrown. -/
def loadTimeline (fetched : Except String TimelineDoc) (dom : Dom) : Except String Dom :=
  match dom.timelineContainer with
  | none => .ok dom
  | some _ =>
    match fetched with
    | .ok data => .ok { dom with timelineContainer := some (renderTimeline data.timeline) }
    | .error _ => .ok dom

/-! ## Scroll animations (main.js 245-305)

State of the intersection-observer subsystem: the `is-visible` flag of each
timeline item and of each other observed (reveal) element, whether the
`.timeline__line-fill` node exists, and the last height written to it
(`none` if never written).  The fill height is a percentage, embedded as a
rational. -/

structure ScrollState where
  timeline : List Bool
  reveals : List Bool
  hasFillTarget : Bool
  fill : Option ℚ
deriving DecidableEq

/-- An entry delivered to `handleIntersection`: which collection the target
belongs to, its index there, and `isIntersecting`. -/
structure ObserverEntry where
  isTimeline : Bool
  idx : Nat
  isIntersecting : Bool
deriving DecidableEq

def countVisible (l : List Bool) : Nat := l.count true

/-- main.js 288-298: `updateTimelineFill` returns early when the fill node
is absent or there are no timeline items; otherwise it writes
`visible / total * 100` as the fill height. -/
def updateTimelineFill (s : ScrollState) : ScrollState :=
  if s.hasFillTarget = false then s
  else if s.timeline.length = 0 then s
  else
    { s with
      fill := some (((countVisible s.timeline : ℚ) / (s.timeline.length : ℚ)) * 100) }

/-- main.js 276-285: one entry of the `entries.forEach` body: an
intersecting target gains `is-visible` (never loses it), and a timeline
target additionally triggers `updateTimelineFill`. -/
def handleEntry (s : ScrollState) (e : ObserverEntry) : ScrollState :=
  if e.isIntersecting then
    if e.isTimeline then
      updateTimelineFill { s with timeline := s.timeline.set e.idx true }
    else
      { s with reveals := s.reveals.set e.idx true }
  else s

/-- main.js 275-286: `handleIntersection` folds `handleEntry` over the
delivered entries in order. -/
def handleIntersection (s : ScrollState) (entries : List ObserverEntry) : ScrollState :=
  entries.foldl handleEntry s

/-- The fill percentage as written, with 0 for a never-written fill. -/
def fillQ (s : ScrollState) : ℚ := s.fill.getD 0

/-- The percentage `updateTimelineFill` computes for state `s`. -/
def fillPct (s : ScrollState) : ℚ :=
  ((countVisible s.timeline : ℚ) / (s.timeline.length : ℚ)) * 100

/-- States reachable by the observer subsystem: either the fill was never
written, or it was last written by `updateTimelineFill` on the current
visibility flags (the fill node exists and the item list is non-empty
whenever a write happened). -/
def FillInv (s : ScrollState) : Prop :=
  s.fill = none ∨ (s.hasFillTarget = true ∧ s.timeline.length ≠ 0 ∧ s.fill = some (fillPct s))

/-! ## Substring counting (to state what the fallback fragment contains) -/

def leadsWith : List Char → List Char → Bool
  | [], _ => true
  | _ :: _, [] => false
  | p :: ps, c :: cs => p == c && leadsWith ps cs

def countOccAux (pat : List Char) : List Char → Nat → Nat
  | [], acc => acc
  | c :: rest, acc =>
    if leadsWith pat (c :: rest) then countOccAux pat rest (acc + 1)
    else countOccAux pat rest acc

def countOcc (pat s : List Char) : Nat := countOccAux pat s 0

def occursIn (pat s : String) : Bool := decide (0 < countOcc pat.data s.data)

/-! ## Concrete sample data (used to instantiate the theorems) -/

def e2019 : TimelineEntry :=
  ⟨"2019", "work", "Assistant", "Org A", "City A", false, none, none⟩

def e2021 : TimelineEntry :=
  ⟨"2021", "education", "Student", "Org B", "City B", false, none, none⟩

def e2023 : TimelineEntry :=
  ⟨"2023", "work", "Engineer", "Org C", "City C", true, none, none⟩

def pComingSoonLinks : ProjectEntry :=
  ⟨"Project One", "A finished project.", [], none, "coming-soon",
    ⟨some "https://github.example/one", some "https://demo.example/one"⟩, true⟩

def pNormalGithub : ProjectEntry :=
  ⟨"Project Two", "Another project.", ["Python"], some "img.png", "normal",
    ⟨some "https://github.example/two", none⟩, true⟩

def domBoth : Dom := ⟨some "", some ""⟩

def scrollStart : ScrollState := ⟨[false, false], [false], true, none⟩

def storeOne : ArrayStore := [[e2019, e2021, e2023]]

/-! ## Theorems -/

set_option maxRecDepth 10000

theorem showTagsFrom_length (ts : List String) : ∀ i, (showTagsFrom i ts).length = ts.length := by
  induction ts with
  | nil => intro i; rfl
  | cons t rest ih => intro i; simp [showTagsFrom, ih]

/-- Claim C4: `decode` is a total deterministic function on strings (its
type in this embedding); when `atob` rejects the input — the input is not
valid under forgiving Base64 — it returns the input unchanged, and when
`atob` accepts it it returns the decoded bytes, never an error. -/
theorem decode_total_passthrough (s : String) :
    (atob s = none → decode s = s) ∧ ∀ r, atob s = some r → decode s = r := by
  constructor
  · intro h; simp [decode, h]
  · intro r h; simp [decode, h]

/-- Claim C4 witness at "%%%" (invalid) and "YWJjZA==" (valid). -/
theorem decode_total_passthrough_witness :
    decode "%%%" = "%%%" ∧ decode "YWJjZA==" = "abcd" :=
  ⟨(decode_total_passthrough "%%%").1 (by decide),
   (decode_total_passthrough "YWJjZA==").2 "abcd" (by decide)⟩

/-- Claim C5 is false as stated: "YWJjZA==" is valid Base64 (it decodes to
"abcd"), but "abcd" is itself valid Base64, so the second `decode` decodes
again and `decode (decode v) ≠ decode v`. -/
theorem decode_not_idempotent_on_valid :
    (atob "YWJjZA==").isSome = true ∧ decode (decode "YWJjZA==") ≠ decode "YWJjZA==" :=
  ⟨by decide, by decide⟩

/-- Claim C5 amended: `decode` is idempotent on exactly the inputs whose
first decoding result is not itself valid Base64 — in particular on every
invalid input, where `decode` is the identity. -/
theorem decode_idempotent_of_output_invalid (v : String) (h : atob (decode v) = none) :
    decode (decode v) = decode v := by
  simp only [decode] at h ⊢
  rw [h]
  rfl

/-- Claim C5 amended witness at the invalid input "%%%". -/
theorem decode_idempotent_of_output_invalid_witness :
    decode (decode "%%%") = decode "%%%" :=
  decode_idempotent_of_output_invalid "%%%" (by decide)

/-- Claim C2: `renderTimeline` renders the entries in exact reverse of
input order — the joined fragment is the per-entry fragments of the input
in reverse — and on entries with periods [2019, 2021, 2023] the cards come
out in order [2023, 2021, 2019]. -/
theorem renderTimeline_reverse_order :
    (∀ items : List TimelineEntry,
      renderTimeline items = String.join ((items.map renderTimelineItem).reverse))
    ∧ renderTimeline [e2019, e2021, e2023]
        = renderTimelineItem e2023 ++ renderTimelineItem e2021 ++ renderTimelineItem e2019 := by
  constructor
  · intro items
    simp [renderTimeline, List.map_reverse]
  · rfl

/-- Claim C10: when the fill node is absent or there are no timeline items,
`updateTimelineFill` is the identity on the state: no percentage is
computed and no fill value is written. -/
theorem updateTimelineFill_empty_safe (s : ScrollState)
    (h : s.hasFillTarget = false ∨ s.timeline = []) :
    updateTimelineFill s = s := by
  rcases h with h | h
  · simp [updateTimelineFill, h]
  · simp [updateTimelineFill, h]

/-- Claim C10 witness: empty timeline with the fill node present. -/
theorem updateTimelineFill_empty_safe_witness :
    updateTimelineFill ⟨[], [true], true, none⟩ = ⟨[], [true], true, none⟩ :=
  updateTimelineFill_empty_safe ⟨[], [true], true, none⟩ (Or.inr rfl)

/-- Claim C1: on a fetch failure, `loadProjects` writes exactly the fixed
fallback fragment into the projects grid — a fragment of exactly two
`<article>` cards, with exactly two card titles, namely "Multi-Camera
Trajectory Fusion" and "More Projects Coming Soon" — while `loadTimeline`
leaves the DOM untouched; both loaders return `Except.ok`, so neither
failure propagates as a thrown error. -/
theorem loadFailure_fallback :
    (∀ (e : String) (dom : Dom) (g : String), dom.projectsGrid = some g →
        loadProjects (.error e) dom
          = .ok { dom with projectsGrid := some renderProjectsFallbackHTML })
    ∧ (∀ (e : String) (dom : Dom), ∃ d, loadProjects (.error e) dom = .ok d)
    ∧ (∀ (e : String) (dom : Dom), loadTimeline (.error e) dom = .ok dom)
    ∧ countOcc "<article".data renderProjectsFallbackHTML.data = 2
    ∧ countOcc "project-card__title".data renderProjectsFallbackHTML.data = 2
    ∧ countOcc "Multi-Camera Trajectory Fusion".data renderProjectsFallbackHTML.data = 1
    ∧ countOcc "More Projects Coming Soon".data renderProjectsFallbackHTML.data = 1 := by
  refine ⟨?_, ?_, ?_, by decide, by decide, by decide, by decide⟩
  · intro e dom g hg
    simp [loadProjects, hg]
  · intro e dom
    cases hg : dom.projectsGrid with
    | none => exact ⟨dom, by simp [loadProjects, hg]⟩
    | some g =>
      exact ⟨{ dom with projectsGrid := some renderProjectsFallbackHTML },
        by simp [loadProjects, hg]⟩
  · intro e dom
    cases hg : dom.timelineContainer with
    | none => simp [loadTimeline, hg]
    | some g => simp [loadTimeline, hg]

/-- Claim C1 witness: a present projects grid and timeline container. -/
theorem loadFailure_fallback_witness :
    loadProjects (.error "Failed to load projects") domBoth
        = .ok { domBoth with projectsGrid := some renderProjectsFallbackHTML }
      ∧ loadTimeline (.error "Failed to load timeline") domBoth = .ok domBoth :=
  ⟨loadFailure_fallback.1 "Failed to load projects" domBoth "" rfl,
   loadFailure_fallback.2.2.1 "Failed to load timeline" domBoth⟩

/-- Claim C3: the external-links hole of a project card is empty for every
entry with status `coming-soon`, regardless of the `links` field; for any
other status it is non-empty exactly when the github or demo link is
present (JavaScript-truthy). -/
theorem comingSoon_card_omits_links (project : ProjectEntry) :
    (project.status = "coming-soon" → projectCardLinks project = "")
    ∧ (project.status ≠ "coming-soon" →
        (projectCardLinks project ≠ ""
          ↔ (jsTruthy project.links.github || jsTruthy project.links.demo) = true)) := by
  constructor
  · intro h
    simp [projectCardLinks, h]
  · intro h
    constructor
    · intro hne
      by_contra hlinks
      apply hne
      have hfalse : (jsTruthy project.links.github || jsTruthy project.links.demo) = false := by
        simpa using hlinks
      simp [projectCardLinks, hfalse]
    · intro hlinks heq
      have hcond : (!(project.status == "coming-soon")
          && (jsTruthy project.links.github || jsTruthy project.links.demo)) = true := by
        simp [hlinks, h]
      rw [projectCardLinks, if_pos hcond] at heq
      have hlen := congrArg String.length heq
      simp only [String.length_append, String.length_empty] at hlen
      have h54 : ("<div class=\"project-card__links\">
                    " : String).length = 54 := by decide
      omega

/-- Claim C3 witness: a coming-soon entry carrying both links emits no
links block; a normal entry with a github link emits one. -/
theorem comingSoon_card_omits_links_witness :
    projectCardLinks pComingSoonLinks = "" ∧ projectCardLinks pNormalGithub ≠ "" :=
  ⟨(comingSoon_card_omits_links pComingSoonLinks).1 rfl,
   ((comingSoon_card_omits_links pNormalGithub).2 (by decide)).mpr (by decide)⟩

/-- Claim C6: under reduced motion `RoleRotation.init` performs the single
static render of role index 0 — the role's title plus one tag element per
configured tag, the first carrying `tag--highlight` — and starts no
animation loop; and for every tag list, `showTags` emits exactly one
element per tag, with the head highlighted whenever the list is non-empty. -/
theorem reducedMotion_static_render :
    roleRotationInit true true true
        = .staticRender (CONFIG.roles.getD 0 ⟨"", []⟩).title
            (showTags (CONFIG.roles.getD 0 ⟨"", []⟩).tags)
    ∧ (∀ (a b : Bool) (i : Nat), roleRotationInit true a b ≠ .animationLoop i)
    ∧ (∀ ts : List String, (showTags ts).length = ts.length)
    ∧ (∀ (t : String) (ts : List String), (showTags (t :: ts)).head? = some (mkTagElem 0 t))
    ∧ (∀ t : String, "tag--highlight" ∈ (mkTagElem 0 t).classes)
    ∧ (showTags (CONFIG.roles.getD 0 ⟨"", []⟩).tags).length = 4 := by
  refine ⟨rfl, ?_, ?_, ?_, ?_, by decide⟩
  · intro a b i
    cases a <;> cases b <;> simp [roleRotationInit]
  · intro ts
    exact showTagsFrom_length ts 0
  · intro t ts
    rfl
  · intro t
    simp [mkTagElem]

/-- Claim C6 witness: static render outcome and tag-count at the
configured first role, and head highlighting at a concrete tag list. -/
theorem reducedMotion_static_render_witness :
    roleRotationInit true true false ≠ .animationLoop 0
      ∧ (showTags ["OpenCV", "YOLO"]).length = 2
      ∧ (showTags ("Traffic Flow" :: ["Signal Timing"])).head? = some (mkTagElem 0 "Traffic Flow") :=
  ⟨reducedMotion_static_render.2.1 true false 0,
   reducedMotion_static_render.2.2.1 ["OpenCV", "YOLO"],
   reducedMotion_static_render.2.2.2.1 "Traffic Flow" ["Signal Timing"]⟩

/-- Claim C7: within one `typeRole` iteration the timer ticks are ordered
typing, then tagging, then pausing, then deleting (every tick of a later
phase comes after every tick of an earlier one), the role index then
advances to `(i + 1) % CONFIG.roles.length`, and after as many iterations
as there are roles the index is back at 0. -/
theorem typeRole_phase_order :
    (∀ r : Role,
      (roleIterationTrace r).Pairwise (fun a b => phaseRank a ≤ phaseRank b))
    ∧ (∀ i : Nat, nextRoleIndex i = (i + 1) % CONFIG.roles.length)
    ∧ nextRoleIndex^[CONFIG.roles.length] 0 = 0 := by
  refine ⟨?_, fun i => rfl, by decide⟩
  intro r
  unfold roleIterationTrace
  rw [List.pairwise_append]
  refine ⟨?_, ?_, ?_⟩
  · rw [List.pairwise_append]
    refine ⟨?_, by simp, ?_⟩
    · rw [List.pairwise_append]
      refine ⟨?_, ?_, ?_⟩
      · apply List.pairwise_replicate.mpr
        exact Or.inr le_rfl
      · apply List.pairwise_replicate.mpr
        exact Or.inr le_rfl
      · intro a ha b hb
        have ha' := List.eq_of_mem_replicate ha
        have hb' := List.eq_of_mem_replicate hb
        subst ha'; subst hb'; decide
    · intro a ha b hb
      rw [List.mem_singleton] at hb
      subst hb
      rcases List.mem_append.mp ha with ha | ha <;>
        · have ha' := List.eq_of_mem_replicate ha
          subst ha'
          decide
  · apply List.pairwise_replicate.mpr
    exact Or.inr le_rfl
  · intro a ha b hb
    have hb' := List.eq_of_mem_replicate hb
    subst hb'
    rcases List.mem_append.mp ha with ha | ha
    · rcases List.mem_append.mp ha with ha | ha <;>
        · have ha' := List.eq_of_mem_replicate ha
          subst ha'
          decide
    · rw [List.mem_singleton] at ha
      subst ha
      decide

/-- Claim C7 witness: the phase trace of the first configured role is
ordered, and four advances return the index to 0. -/
theorem typeRole_phase_order_witness :
    (roleIterationTrace ⟨"Ab", ["x"]⟩).Pairwise (fun a b => phaseRank a ≤ phaseRank b)
      ∧ nextRoleIndex^[CONFIG.roles.length] 0 = 0 :=
  ⟨typeRole_phase_order.1 ⟨"Ab", ["x"]⟩, typeRole_phase_order.2.2⟩

theorem count_true_set_mono (l : List Bool) (i : Nat) :
    l.count true ≤ (l.set i true).count true := by
  induction l generalizing i with
  | nil => simp
  | cons a t ih =>
    cases i with
    | zero =>
      cases a <;> simp [List.set, List.count_cons]
    | succ n =>
      simp only [List.set, List.count_cons]
      have := ih n
      omega

theorem getD_set_true_mono (l : List Bool) (i j : Nat) (h : l.getD j false = true) :
    (l.set i true).getD j false = true := by
  by_cases hlen : i < l.length
  · rcases eq_or_ne i j with rfl | hne
    · simp [List.getD_eq_getElem?_getD, List.getElem?_set_self hlen]
    · rw [List.getD_eq_getElem?_getD, List.getElem?_set_ne hne, ← List.getD_eq_getElem?_getD]
      exact h
  · rw [List.set_eq_of_length_le (by omega)]
    exact h

theorem fillPct_nonneg (s : ScrollState) : 0 ≤ fillPct s := by
  unfold fillPct
  have h1 : (0 : ℚ) ≤ (countVisible s.timeline : ℚ) := by exact_mod_cast Nat.zero_le _
  have h2 : (0 : ℚ) ≤ (s.timeline.length : ℚ) := by exact_mod_cast Nat.zero_le _
  exact mul_nonneg (div_nonneg h1 h2) (by norm_num)

theorem fillPct_mono (s s' : ScrollState) (hlen : s'.timeline.length = s.timeline.length)
    (hcount : countVisible s.timeline ≤ countVisible s'.timeline) :
    fillPct s ≤ fillPct s' := by
  unfold fillPct
  rw [hlen]
  rcases Nat.eq_zero_or_pos s.timeline.length with h0 | hpos
  · simp [h0]
  · have hposq : (0 : ℚ) < (s.timeline.length : ℚ) := by exact_mod_cast hpos
    have hc : (countVisible s.timeline : ℚ) ≤ (countVisible s'.timeline : ℚ) := by
      exact_mod_cast hcount
    exact mul_le_mul_of_nonneg_right
      ((div_le_div_iff_of_pos_right hposq).mpr hc) (by norm_num)

theorem updateTimelineFill_eq_of_no_target (s : ScrollState) (h : s.hasFillTarget = false) :
    updateTimelineFill s = s := by
  simp [updateTimelineFill, h]

theorem updateTimelineFill_eq_of_no_items (s : ScrollState) (h : s.timeline.length = 0) :
    updateTimelineFill s = s := by
  unfold updateTimelineFill
  by_cases hft : s.hasFillTarget = false
  · simp [hft]
  · simp [hft, h]


/-- Precondition under which one `updateTimelineFill` call is monotone: the
last written fill, if any, is at most the percentage the current flags
yield. -/
def PreInv (s : ScrollState) : Prop :=
  s.fill = none
    ∨ (s.hasFillTarget = true ∧ s.timeline.length ≠ 0
        ∧ ∃ q, s.fill = some q ∧ q ≤ fillPct s)

theorem fillInv_preInv {s : ScrollState} (h : FillInv s) : PreInv s := by
  rcases h with hnone | ⟨h1, h2, h3⟩
  · exact Or.inl hnone
  · exact Or.inr ⟨h1, h2, fillPct s, h3, le_refl _⟩

theorem updateTimelineFill_props (s : ScrollState) (h : PreInv s) :
    FillInv (updateTimelineFill s) ∧ fillQ s ≤ fillQ (updateTimelineFill s)
      ∧ (updateTimelineFill s).timeline = s.timeline
      ∧ (updateTimelineFill s).hasFillTarget = s.hasFillTarget := by
  unfold updateTimelineFill
  split_ifs with h1 h2
  · -- no fill node: PreInv forces fill = none
    have hnone : s.fill = none := by
      rcases h with hnone | ⟨hft, _, _⟩
      · exact hnone
      · rw [hft] at h1; cases h1
    exact ⟨Or.inl hnone, le_refl _, rfl, rfl⟩
  · -- no timeline items
    have hnone : s.fill = none := by
      rcases h with hnone | ⟨_, hlen, _⟩
      · exact hnone
      · exact absurd h2 hlen
    exact ⟨Or.inl hnone, le_refl _, rfl, rfl⟩
  · have hft : s.hasFillTarget = true := by
      revert h1
      cases s.hasFillTarget <;> simp
    refine ⟨Or.inr ⟨hft, h2, rfl⟩, ?_, rfl, rfl⟩
    show fillQ s ≤ fillPct s
    rcases h with hnone | ⟨_, _, q, hq, hle⟩
    · rw [fillQ, hnone]
      exact fillPct_nonneg s
    · rw [fillQ, hq]
      exact hle

theorem handleEntry_step (s : ScrollState) (e : ObserverEntry) (h : FillInv s) :
    FillInv (handleEntry s e) ∧ fillQ s ≤ fillQ (handleEntry s e)
      ∧ ∀ i, s.timeline.getD i false = true →
          (handleEntry s e).timeline.getD i false = true := by
  by_cases hint : e.isIntersecting
  case neg =>
    have hid : handleEntry s e = s := by simp [handleEntry, hint]
    rw [hid]
    exact ⟨h, le_refl _, fun i hi => hi⟩
  by_cases htl : e.isTimeline
  case neg =>
    have hid : handleEntry s e = { s with reveals := s.reveals.set e.idx true } := by
      simp [handleEntry, hint, htl]
    rw [hid]
    refine ⟨?_, le_refl _, fun i hi => hi⟩
    rcases h with hnone | ⟨h1, h2, h3⟩
    · exact Or.inl hnone
    · exact Or.inr ⟨h1, h2, h3⟩
  have hid : handleEntry s e
      = updateTimelineFill { s with timeline := s.timeline.set e.idx true } := by
    simp [handleEntry, hint, htl]
  rw [hid]
  have hlen : (({ s with timeline := s.timeline.set e.idx true } : ScrollState)).timeline.length
      = s.timeline.length := List.length_set s.timeline e.idx true
  have hcount : countVisible s.timeline
      ≤ countVisible (({ s with timeline := s.timeline.set e.idx true } : ScrollState)).timeline :=
    count_true_set_mono s.timeline e.idx
  have hmono : fillPct s ≤ fillPct { s with timeline := s.timeline.set e.idx true } :=
    fillPct_mono s _ hlen hcount
  have hpre : PreInv { s with timeline := s.timeline.set e.idx true } := by
    rcases h with hnone | ⟨h1, h2, h3⟩
    · exact Or.inl hnone
    · refine Or.inr ⟨h1, by rw [hlen]; exact h2, fillPct s, h3, hmono⟩
  have hprops := updateTimelineFill_props { s with timeline := s.timeline.set e.idx true } hpre
  refine ⟨hprops.1, le_trans (le_of_eq rfl) hprops.2.1, ?_⟩
  intro i hi
  rw [hprops.2.2.1]
  exact getD_set_true_mono s.timeline e.idx i hi

theorem handleIntersection_run (entries : List ObserverEntry) :
    ∀ s : ScrollState, FillInv s →
      FillInv (handleIntersection s entries)
      ∧ fillQ s ≤ fillQ (handleIntersection s entries)
      ∧ ∀ i, s.timeline.getD i false = true →
          (handleIntersection s entries).timeline.getD i false = true := by
  induction entries with
  | nil => intro s h; exact ⟨h, le_refl _, fun i hi => hi⟩
  | cons e rest ih =>
    intro s h
    have hstep := handleEntry_step s e h
    have hrec := ih (handleEntry s e) hstep.1
    exact ⟨hrec.1, le_trans hstep.2.1 hrec.2.1, fun i hi => hrec.2.2 i (hstep.2.2 i hi)⟩

/-- Claim C8: the intersection handler only ever marks elements visible
(never re-hides them); every timeline-element visibility transition
recomputes the fill as `visible / total * 100` (the write equation below);
and consequently over any sequence of delivered entries the fill
percentage never decreases and the fill-consistency invariant is
preserved. -/
theorem timeline_fill_progress (s : ScrollState) (hInv : FillInv s) :
    (∀ entries : List ObserverEntry,
        FillInv (handleIntersection s entries)
        ∧ fillQ s ≤ fillQ (handleIntersection s entries)
        ∧ ∀ i, s.timeline.getD i false = true →
            (handleIntersection s entries).timeline.getD i false = true)
    ∧ (s.hasFillTarget = true → s.timeline.length ≠ 0 →
        (updateTimelineFill s).fill
          = some (((countVisible s.timeline : ℚ) / (s.timeline.length : ℚ)) * 100)) := by
  refine ⟨fun entries => handleIntersection_run entries s hInv, ?_⟩
  intro hft hlen
  unfold updateTimelineFill
  rw [hft]
  simp [hlen]

/-- Claim C8 witness: from a fresh two-item timeline, one intersecting
timeline entry does not decrease the fill, and the write equation holds at
a state with one of two items visible. -/
theorem timeline_fill_progress_witness :
    fillQ scrollStart ≤ fillQ (handleIntersection scrollStart [⟨true, 0, true⟩])
      ∧ (updateTimelineFill ⟨[true, false], [], true, none⟩).fill
          = some (((countVisible [true, false] : ℚ)
              / (([true, false] : List Bool).length : ℚ)) * 100) :=
  ⟨((timeline_fill_progress scrollStart (Or.inl rfl)).1 [⟨true, 0, true⟩]).2.1,
   (timeline_fill_progress ⟨[true, false], [], true, none⟩ (Or.inl rfl)).2 rfl (by decide)⟩

/-- Claim C9: `renderTimeline` does not mutate its input array: it reverses
the fresh spread copy in place, so after the call the input reference reads
back exactly as before, and the markup produced equals the pure
`renderTimeline` of the input's contents. -/
theorem renderTimelineJS_frame (st : ArrayStore) (r : Nat) (h : r < st.length) :
    readArr (renderTimelineJS st r).1 r = readArr st r
      ∧ (renderTimelineJS st r).2 = renderTimeline (readArr st r) := by
  have hne : st.length ≠ r := by omega
  constructor
  · simp only [renderTimelineJS, allocArr, writeArr, readArr]
    rw [List.getD_eq_getElem?_getD, List.getElem?_set_ne hne, List.getElem?_append,
      if_pos h, ← List.getD_eq_getElem?_getD]
  · simp only [renderTimelineJS, allocArr, writeArr, readArr, renderTimeline]
    have hv : (st ++ [st.getD r []]).getD st.length [] = st.getD r [] := by
      rw [List.getD_eq_getElem?_getD, List.getElem?_append, if_neg (by omega)]
      simp
    rw [hv]
    have hlt2 : st.length < (st ++ [st.getD r []]).length := by simp
    rw [List.getD_eq_getElem?_getD, List.getElem?_set_self hlt2]
    simp

/-- Claim C9 witness: a one-array store holding the three sample entries. -/
theorem renderTimelineJS_frame_witness :
    readArr (renderTimelineJS storeOne 0).1 0 = readArr storeOne 0
      ∧ (renderTimelineJS storeOne 0).2 = renderTimeline (readArr storeOne 0) :=
  renderTimelineJS_frame storeOne 0 (by decide)
